import Mathlib

/-!
Verification development for the GyroBalls repository.

The file shallowly embeds the input-to-gravity mappers (gyroscope.js,
mouse.js), the shake-to-reset state machine (reset.js), the stored
ball-count parsing (physics.js / reset.js / settings.js), the collision
pair-key helpers (sound.js, vibration.js) and the permission / vibration
error-handling paths, and proves the specification's claims about them.

Floating-point numbers of the source are modelled as real numbers where
transcendental functions (Math.sqrt, Math.sin) are involved, and as
rationals for the timestamp arithmetic of the reset module, where every
operation is exact.
-/

namespace GyroBalls

/-! ### Stored ball count (physics.js `_storedBallCount`, duplicated in reset.js;
settings.js `_applyStoredValues` applies the same parse-and-clamp logic). -/

/-- Value of a decimal digit string, most significant first. -/
def digitsVal (ds : List Char) : Nat :=
  ds.foldl (fun n c => n * 10 + (c.toNat - 48)) 0

/-- Longest leading run of decimal digits, as a number; `none` when the list
does not start with a digit (JavaScript `parseInt` yields `NaN` then). -/
def leadingDigits (cs : List Char) : Option Nat :=
  let ds := cs.takeWhile Char.isDigit
  if ds.isEmpty then none else some (digitsVal ds)

/-- Model of JavaScript `parseInt(s, 10)`: skip leading whitespace, accept an
optional sign, then read the longest prefix of decimal digits, ignoring any
trailing characters; `none` stands for `NaN` (no digits found). -/
def parseIntJS (s : String) : Option Int :=
  let cs := s.data.dropWhile Char.isWhitespace
  match cs with
  | '-' :: rest => (leadingDigits rest).map (fun n => -(n : Int))
  | '+' :: rest => (leadingDigits rest).map (fun n => (n : Int))
  | _ => (leadingDigits cs).map (fun n => (n : Int))

/-- Model of `_storedBallCount()` (physics.js and reset.js):
`localStorage.getItem('gyroballs_count')` is `store` (`none` when the key is
absent); `store.getD ""` models `localStorage.getItem(...) || ''`;
a non-parseable value yields the default 10, otherwise the parsed value is
clamped with `Math.min(30, Math.max(1, n))`. -/
def storedBallCount (store : Option String) : Int :=
  match parseIntJS (store.getD "") with
  | none => 10
  | some n => min 30 (max 1 n)

/-! ### Gravity mapping (gyroscope.js, mouse.js) -/

/-- Maximum magnitude of the gravity vector (`MAX_GRAVITY` in gyroscope.js,
kept in sync with the identical constant in mouse.js). -/
noncomputable def MAX_GRAVITY : ℝ := 2.5

/-- Lateral (gamma) scale factor (`TILT_SCALE` in gyroscope.js). -/
noncomputable def TILT_SCALE : ℝ := 45

/-- Number of consecutive null deviceorientation events before the gyroscope
module falls back to mouse control (`NO_DATA_THRESHOLD` in gyroscope.js). -/
def NO_DATA_THRESHOLD : Nat := 5

/-- Euclidean magnitude of a 2D vector, `Math.sqrt(x*x + y*y)`. -/
noncomputable def magnitude (v : ℝ × ℝ) : ℝ :=
  Real.sqrt (v.1 * v.1 + v.2 * v.2)

/-- The magnitude-clamping block shared verbatim by `_onDeviceOrientation`
(gyroscope.js) and `_onMouseMove` (mouse.js): when the magnitude of
`(gx, gy)` exceeds `MAX_GRAVITY` both components are scaled by
`MAX_GRAVITY / mag`, otherwise the vector is written unchanged. -/
noncomputable def clampGravity (gx gy : ℝ) : ℝ × ℝ :=
  let mag := Real.sqrt (gx * gx + gy * gy)
  if mag > MAX_GRAVITY then (gx / mag * MAX_GRAVITY, gy / mag * MAX_GRAVITY)
  else (gx, gy)

/-- A `deviceorientation` event: `beta` and `gamma` are nullable numbers. -/
structure OrientationEvent where
  beta : Option ℝ
  gamma : Option ℝ

/-- The `beta === null && gamma === null` test of `_onDeviceOrientation`. -/
def bothNull (ev : OrientationEvent) : Bool :=
  ev.beta.isNone && ev.gamma.isNone

/-- State of `_startGravityControl` (gyroscope.js): the closure variable
`nullCount`, whether the `deviceorientation` listener is still attached,
how many times `onNoGyroscope` has been invoked, and the engine gravity. -/
structure GyroState where
  nullCount : Nat
  attached : Bool
  fallbackCalls : Nat
  gravity : ℝ × ℝ

/-- Model of `_onDeviceOrientation` (gyroscope.js).  When both angles are
null the null counter is incremented and, at `NO_DATA_THRESHOLD`, the
listener removes itself and calls the fallback; otherwise the counter is
reset to zero and the clamped tilt-to-gravity mapping
`gx = (gamma ?? 0) / TILT_SCALE`, `gy = Math.sin((beta ?? 90) * PI / 180)`
is written to the engine gravity. -/
noncomputable def onDeviceOrientation (ev : OrientationEvent) (s : GyroState) :
    GyroState :=
  if bothNull ev then
    if s.nullCount + 1 ≥ NO_DATA_THRESHOLD then
      { s with nullCount := s.nullCount + 1, attached := false,
               fallbackCalls := s.fallbackCalls + 1 }
    else
      { s with nullCount := s.nullCount + 1 }
  else
    let gx := (ev.gamma.getD 0) / TILT_SCALE
    let gy := Real.sin ((ev.beta.getD 90) * Real.pi / 180)
    { s with nullCount := 0, gravity := clampGravity gx gy }

/-- One dispatched `deviceorientation` event: the handler only runs while the
listener is attached (`window.removeEventListener` stops later deliveries). -/
noncomputable def gyroStep (s : GyroState) (ev : OrientationEvent) : GyroState :=
  if s.attached then onDeviceOrientation ev s else s

/-- Dispatch a stream of `deviceorientation` events. -/
noncomputable def gyroProcess (s : GyroState) : List OrientationEvent → GyroState
  | [] => s
  | ev :: rest => gyroProcess (gyroStep s ev) rest

/-- Initial state of `_startGravityControl`: `nullCount = 0`, listener
attached, fallback never called, engine gravity as configured by
`initPhysics` (whatever it currently is, abstracted as `g0`). -/
def gyroInit (g0 : ℝ × ℝ) : GyroState :=
  { nullCount := 0, attached := true, fallbackCalls := 0, gravity := g0 }

/-- Model of `_onMouseMove` (mouse.js): normalise the cursor offset from the
screen centre `(w/2, h/2)` to a ±1 range, scale by `MAX_GRAVITY`, and clamp
the vector magnitude exactly as the gyroscope path does. -/
noncomputable def mouseGravity (w h cX cY : ℝ) : ℝ × ℝ :=
  let cx := w / 2
  let cy := h / 2
  let nx := (cX - cx) / cx
  let ny := (cY - cy) / cy
  clampGravity (nx * MAX_GRAVITY) (ny * MAX_GRAVITY)

/-! ### Reset state machine (reset.js).  Timestamps (`performance.now()`)
and acceleration readings are exact rationals here; the only non-rational
operation in reset.js is `Math.sqrt` inside the shake test
`Math.sqrt(x*x + y*y + z*z) > SHAKE_THRESHOLD`, which is embedded as the
equivalent squared comparison `x*x + y*y + z*z > SHAKE_THRESHOLD^2`
(both sides of the original comparison are nonnegative). -/

/-- Minimum squared-acceleration shake threshold (`SHAKE_THRESHOLD = 22`). -/
def SHAKE_THRESHOLD : ℚ := 22

/-- Milliseconds to suppress further shake triggers (`SHAKE_COOLDOWN_MS`). -/
def SHAKE_COOLDOWN_MS : ℚ := 4500

/-- Max milliseconds between touchend events for a double-tap (`DOUBLE_TAP_MS`). -/
def DOUBLE_TAP_MS : ℚ := 350

/-- The countdown interval created by `setInterval(..., 1000)`: its period in
milliseconds and the closure variable `count`. -/
structure Timer where
  periodMs : ℚ
  count : Nat
deriving DecidableEq

/-- Module-level state of reset.js plus the engine gravity it manipulates:
`_isResetting`, `_lastShakeMs`, `_gravityOverride`, the pending interval
timer (with its closure counter), `_lastTapMs`, and `engine.gravity`. -/
structure ResetState where
  isResetting : Bool
  lastShakeMs : ℚ
  gravityOverride : Option (ℚ × ℚ)
  timer : Option Timer
  lastTapMs : ℚ
  engineGravity : ℚ × ℚ
deriving DecidableEq

/-- Observable side effects of the reset module (DOM updates, beeps, and the
physics-world calls `removeAllBalls()` / `resetBalls(n)`). -/
inductive RAction
  | showOverlay
  | showNumber (n : Nat)
  | beep (step : Nat)
  | hideOverlay
  | removeAllBalls
  | resetBalls (n : Int)
deriving DecidableEq

/-- Model of `_triggerReset` (reset.js): ignored while `_isResetting`;
otherwise records the trigger time in `_lastShakeMs`, freezes gravity to
`(0, 0)`, shows the overlay at 3 with the first beep
(`playCountdownBeep(4 - count)` with `count = 3`), and starts the 1000 ms
interval with `count = 3`. -/
def triggerReset (now : ℚ) (s : ResetState) : ResetState × List RAction :=
  if s.isResetting then (s, [])
  else
    ({ s with isResetting := true, lastShakeMs := now,
              gravityOverride := some (0, 0),
              timer := some ⟨1000, 3⟩ },
     [.showOverlay, .showNumber 3, .beep 1])

/-- Model of one firing of the `setInterval` callback in `_triggerReset`:
decrement `count`; while positive, show it and beep `4 - count`; at zero,
clear the interval, hide the overlay, replace all balls with
`resetBalls(_storedBallCount())`, release the gravity freeze and leave the
resetting state.  (A tick can only occur while the interval exists.) -/
def timerTick (store : Option String) (s : ResetState) : ResetState × List RAction :=
  match s.timer with
  | none => (s, [])
  | some t =>
    let c := t.count - 1
    if c > 0 then
      ({ s with timer := some ⟨t.periodMs, c⟩ }, [.showNumber c, .beep (4 - c)])
    else
      ({ s with timer := none, gravityOverride := none, isResetting := false },
       [.hideOverlay, .removeAllBalls, .resetBalls (storedBallCount store)])

/-- Events handled by the reset module: a `devicemotion` reading (with
nullable acceleration components), a `dblclick`, a `touchend`, one firing of
the countdown interval, a gravity write from the gyroscope/mouse modules,
and the Matter.js `beforeUpdate` hook that runs before each physics step. -/
inductive REvent
  | motion (now : ℚ) (acc : Option (Option ℚ × Option ℚ × Option ℚ))
  | dblclick (now : ℚ)
  | touchend (now : ℚ)
  | tick
  | gravityWrite (g : ℚ × ℚ)
  | beforeUpdate
deriving DecidableEq

/-- Whether an event is one of the three reset triggers (shake, double-click,
double-tap). -/
def isTrigger : REvent → Bool
  | .motion _ _ => true
  | .dblclick _ => true
  | .touchend _ => true
  | _ => false

/-- One step of the reset module: the event listeners installed by
`initReset` (devicemotion shake detection, dblclick, touchend double-tap),
the interval callback, and the `beforeUpdate` gravity-override hook. -/
def resetStep (store : Option String) (s : ResetState) :
    REvent → ResetState × List RAction
  | .motion now acc =>
    if s.isResetting then (s, [])
    else if now - s.lastShakeMs < SHAKE_COOLDOWN_MS then (s, [])
    else
      match acc with
      | none => (s, [])
      | some (x, y, z) =>
        let sq := (x.getD 0) * (x.getD 0) + (y.getD 0) * (y.getD 0) +
                  (z.getD 0) * (z.getD 0)
        if sq > SHAKE_THRESHOLD * SHAKE_THRESHOLD then triggerReset now s
        else (s, [])
  | .dblclick now =>
    if s.isResetting then (s, []) else triggerReset now s
  | .touchend now =>
    let r :=
      if now - s.lastTapMs < DOUBLE_TAP_MS ∧ s.isResetting = false then
        triggerReset now s
      else (s, [])
    ({ r.1 with lastTapMs := now }, r.2)
  | .tick => timerTick store s
  | .gravityWrite g => ({ s with engineGravity := g }, [])
  | .beforeUpdate =>
    match s.gravityOverride with
    | some g => ({ s with engineGravity := g }, [])
    | none => (s, [])

/-- Run the reset module over a sequence of events, discarding the actions. -/
def resetRun (store : Option String) (s : ResetState) : List REvent → ResetState
  | [] => s
  | ev :: rest => resetRun store (resetStep store s ev).1 rest

/-- Effect of one reset action on the number of ball bodies in the world:
`removeAllBalls` removes every body labelled ball, `resetBalls n` adds `n`
fresh balls. -/
def applyAction (balls : Int) : RAction → Int
  | .removeAllBalls => 0
  | .resetBalls n => balls + n
  | _ => balls

/-- Effect of a list of reset actions on the ball population. -/
def applyBallActions (balls : Int) (acts : List RAction) : Int :=
  acts.foldl applyAction balls

/-! ### Collision pair keys and per-pair cooldown (sound.js, vibration.js) -/

/-- Per-pair cooldown in milliseconds (`COOLDOWN_MS`, identical in sound.js
and vibration.js). -/
def COOLDOWN_MS : ℚ := 80

namespace Sound

/-- Model of `_pairKey` (sound.js): a stable string key for a body pair,
sorted by id so order does not matter. -/
def pairKey (idA idB : Nat) : String :=
  if idA < idB then toString idA ++ "_" ++ toString idB
  else toString idB ++ "_" ++ toString idA

end Sound

namespace Vibration

/-- Model of `_pairKey` (vibration.js), textually identical to the sound
module's helper. -/
def pairKey (idA idB : Nat) : String :=
  if idA < idB then toString idA ++ "_" ++ toString idB
  else toString idB ++ "_" ++ toString idA

end Vibration

/-- Model of `_cooldowns.get(key) ?? 0`: the cooldown map as an association
list from keys to `performance.now()` timestamps. -/
def lastPlayed (m : List (String × ℚ)) (key : String) : ℚ :=
  (m.lookup key).getD 0

/-- The per-pair cooldown test of `_onCollision` (sound.js):
`now - lastPlayed < COOLDOWN_MS` suppresses the effect for the pair. -/
def suppressed (m : List (String × ℚ)) (now : ℚ) (idA idB : Nat) : Bool :=
  now - lastPlayed m (Sound.pairKey idA idB) < COOLDOWN_MS

/-! ### Permission prompt and vibration error handling (gyroscope.js,
vibration.js).  A JavaScript computation that may throw is embedded as an
`Except Unit` value: `.error ()` is a thrown exception, `.ok` a normal
result. -/

/-- Model of the resolution logic of `_showPermissionPrompt` (gyroscope.js):
the outcome of `DeviceOrientationEvent.requestPermission()` is either a
state string or a thrown exception; anything other than `'granted'`
(including a throw) resolves to `'denied'`.  The promise always resolves —
no exception propagates. -/
def promptResolve (outcome : Except Unit String) : String :=
  match outcome with
  | .ok state => if state = "granted" then "granted" else "denied"
  | .error _ => "denied"

/-- Result of `initGyroscope` on the iOS 13+ path: whether `onDenied` was
invoked at the permission stage and whether `_startGravityControl` ran. -/
structure InitResult where
  onDeniedCalled : Bool
  gravityControlStarted : Bool
deriving DecidableEq

/-- Model of `initGyroscope` (gyroscope.js): when a permission call is
required, a non-granted prompt result invokes `onDenied` and returns;
otherwise (granted, or no permission needed) gravity control starts. -/
def initGyroscope (permissionRequired : Bool) (outcome : Except Unit String) :
    InitResult :=
  if permissionRequired then
    if promptResolve outcome ≠ "granted" then ⟨true, false⟩
    else ⟨false, true⟩
  else ⟨false, true⟩

/-- Model of the guarded vibration call in `_onCollision` (vibration.js):
`try { navigator.vibrate(duration) } catch { }` — a throwing
`navigator.vibrate` is swallowed and the handler continues normally. -/
def vibrateGuarded (vibrate : Nat → Except Unit Unit) (duration : Nat) :
    Except Unit Unit :=
  match vibrate duration with
  | .ok u => .ok u
  | .error _ => .ok ()

/-! ### Specification-side predicates used by the claims -/

/-- The event list starts with `m` consecutive events whose `beta` and
`gamma` are both null. -/
def LeadNullRun (m : Nat) (evs : List OrientationEvent) : Prop :=
  ∃ mid post, evs = mid ++ post ∧ mid.length = m ∧ ∀ e ∈ mid, bothNull e = true

/-- Somewhere in the event list, `k` consecutive events have both `beta` and
`gamma` null. -/
def HasNullRun (k : Nat) (evs : List OrientationEvent) : Prop :=
  ∃ pre mid post, evs = pre ++ mid ++ post ∧ mid.length = k ∧
    ∀ e ∈ mid, bothNull e = true

/-! ## Helper lemmas -/

/-- The sound module's pair key is symmetric in its two body ids. -/
theorem sound_pairKey_swap (a b : Nat) : Sound.pairKey a b = Sound.pairKey b a := by
  unfold Sound.pairKey
  rcases Nat.lt_trichotomy a b with h | h | h
  · rw [if_pos h, if_neg (Nat.lt_asymm h)]
  · subst h; rfl
  · rw [if_neg (Nat.lt_asymm h), if_pos h]

/-- The vibration module's pair key coincides with the sound module's. -/
theorem vibration_pairKey_eq_sound (a b : Nat) :
    Vibration.pairKey a b = Sound.pairKey a b := rfl

/-- Clamping the zero vector yields the zero vector. -/
theorem clampGravity_zero : clampGravity 0 0 = (0, 0) := by
  unfold clampGravity MAX_GRAVITY
  rw [show (0 : ℝ) * 0 + 0 * 0 = 0 by ring, Real.sqrt_zero]
  norm_num

/-- The magnitude of a clamped vector is the raw magnitude capped at
`MAX_GRAVITY`. -/
theorem clampGravity_magnitude (gx gy : ℝ) :
    magnitude (clampGravity gx gy) = min (magnitude (gx, gy)) MAX_GRAVITY := by
  have hmag : magnitude (gx, gy) = Real.sqrt (gx * gx + gy * gy) := rfl
  dsimp only [clampGravity]
  by_cases h : Real.sqrt (gx * gx + gy * gy) > MAX_GRAVITY
  · rw [if_pos h]
    have hM : (0 : ℝ) < MAX_GRAVITY := by norm_num [MAX_GRAVITY]
    have hm0 : 0 < Real.sqrt (gx * gx + gy * gy) := lt_trans hM h
    have h1 : gx / Real.sqrt (gx * gx + gy * gy) * MAX_GRAVITY *
        (gx / Real.sqrt (gx * gx + gy * gy) * MAX_GRAVITY) +
        gy / Real.sqrt (gx * gx + gy * gy) * MAX_GRAVITY *
        (gy / Real.sqrt (gx * gx + gy * gy) * MAX_GRAVITY) =
        (MAX_GRAVITY / Real.sqrt (gx * gx + gy * gy)) ^ 2 *
        (gx * gx + gy * gy) := by ring
    show Real.sqrt _ = _
    rw [h1, Real.sqrt_mul (sq_nonneg _), Real.sqrt_sq (le_of_lt (div_pos hM hm0)),
      ← hmag, hmag, div_mul_cancel₀ _ (ne_of_gt hm0)]
    exact (min_eq_right (le_of_lt h)).symm
  · rw [if_neg h]
    rw [← hmag] at h
    exact (min_eq_left (le_of_not_lt h)).symm

/-- The clamped vector never exceeds `MAX_GRAVITY` in magnitude. -/
theorem clampGravity_le (gx gy : ℝ) :
    magnitude (clampGravity gx gy) ≤ MAX_GRAVITY := by
  rw [clampGravity_magnitude]
  exact min_le_right _ _

/-- After the listener has been removed, later events change nothing. -/
theorem gyroProcess_detached : ∀ (evs : List OrientationEvent) (s : GyroState),
    s.attached = false → gyroProcess s evs = s := by
  intro evs
  induction evs with
  | nil => intro s _; rfl
  | cons e rest ih =>
    intro s h
    show gyroProcess (gyroStep s e) rest = s
    rw [gyroStep, if_neg (by simp [h])]
    exact ih s h

/-- A leading null run of length zero always exists. -/
theorem leadNullRun_zero (evs : List OrientationEvent) : LeadNullRun 0 evs :=
  ⟨[], evs, rfl, rfl, by intro e he; cases he⟩

/-- The empty stream has only the empty leading null run. -/
theorem leadNullRun_nil (m : Nat) : LeadNullRun m [] → m = 0 := by
  rintro ⟨mid, post, he, hl, -⟩
  obtain ⟨h1, -⟩ := List.append_eq_nil.mp he.symm
  subst h1
  simpa using hl.symm

/-- Characterisation of a nonempty leading null run on a cons cell. -/
theorem leadNullRun_cons (m : Nat) (e : OrientationEvent)
    (evs : List OrientationEvent) :
    LeadNullRun (m + 1) (e :: evs) ↔ bothNull e = true ∧ LeadNullRun m evs := by
  constructor
  · rintro ⟨mid, post, he, hl, hall⟩
    cases mid with
    | nil => simp at hl
    | cons x mid2 =>
      rw [List.cons_append] at he
      injection he with hx hrest
      subst hx
      refine ⟨hall e (List.mem_cons_self e mid2), mid2, post, hrest, ?_,
        fun y hy => hall y (List.mem_cons_of_mem e hy)⟩
      simpa using hl
  · rintro ⟨hn, mid, post, he, hl, hall⟩
    refine ⟨e :: mid, post, ?_, ?_, ?_⟩
    · rw [List.cons_append, ← he]
    · simp [hl]
    · intro y hy
      rcases List.mem_cons.mp hy with rfl | hy2
      · exact hn
      · exact hall y hy2

/-- A leading null run can be shortened. -/
theorem leadNullRun_mono {m m' : Nat} (hle : m' ≤ m)
    {evs : List OrientationEvent} :
    LeadNullRun m evs → LeadNullRun m' evs := by
  rintro ⟨mid, post, he, hl, hall⟩
  refine ⟨mid.take m', mid.drop m' ++ post, ?_, ?_, ?_⟩
  · rw [he, ← List.append_assoc, List.take_append_drop]
  · rw [List.length_take, hl]; omega
  · intro y hy
    exact hall y (List.take_subset m' mid hy)

/-- A leading null run is in particular a null run somewhere. -/
theorem leadNullRun_hasNullRun {k : Nat} {evs : List OrientationEvent} :
    LeadNullRun k evs → HasNullRun k evs := by
  rintro ⟨mid, post, he, hl, hall⟩
  exact ⟨[], mid, post, by simpa using he, hl, hall⟩

/-- The empty stream contains no nonempty null run. -/
theorem hasNullRun_nil {k : Nat} : HasNullRun k [] → k = 0 := by
  rintro ⟨pre, mid, post, he, hl, -⟩
  obtain ⟨h2, -⟩ := List.append_eq_nil.mp he.symm
  obtain ⟨-, hmid⟩ := List.append_eq_nil.mp h2
  subst hmid
  simpa using hl.symm

/-- A null run in a cons cell either starts at the head or lies in the tail. -/
theorem hasNullRun_cons (k : Nat) (e : OrientationEvent)
    (evs : List OrientationEvent) :
    HasNullRun k (e :: evs) ↔ LeadNullRun k (e :: evs) ∨ HasNullRun k evs := by
  constructor
  · rintro ⟨pre, mid, post, he, hl, hall⟩
    cases pre with
    | nil =>
      left
      exact ⟨mid, post, by simpa using he, hl, hall⟩
    | cons x pre2 =>
      right
      rw [List.cons_append, List.cons_append] at he
      injection he with hx hrest
      exact ⟨pre2, mid, post, hrest, hl, hall⟩
  · rintro (⟨mid, post, he, hl, hall⟩ | ⟨pre, mid, post, he, hl, hall⟩)
    · exact ⟨[], mid, post, by simpa using he, hl, hall⟩
    · exact ⟨e :: pre, mid, post,
        by rw [List.cons_append, List.cons_append, ← he], hl, hall⟩

/-- While attached, dispatching an event runs the handler. -/
theorem gyroStep_attached (e : OrientationEvent) (n : Nat) (g : ℝ × ℝ) :
    gyroStep ⟨n, true, 0, g⟩ e = onDeviceOrientation e ⟨n, true, 0, g⟩ := by
  rw [gyroStep, if_pos rfl]

/-- Unfolding lemma for `gyroProcess` on a cons cell. -/
theorem gyroProcess_cons (s : GyroState) (e : OrientationEvent)
    (rest : List OrientationEvent) :
    gyroProcess s (e :: rest) = gyroProcess (gyroStep s e) rest := rfl

/-- A both-null event at the threshold detaches the listener and fires the
fallback exactly once; nothing changes afterwards. -/
theorem gyroProcess_cons_null_high (e : OrientationEvent)
    (rest : List OrientationEvent) (n : Nat) (g : ℝ × ℝ)
    (hb : bothNull e = true) (h5 : 5 ≤ n + 1) :
    gyroProcess ⟨n, true, 0, g⟩ (e :: rest) = ⟨n + 1, false, 1, g⟩ := by
  rw [gyroProcess_cons, gyroStep_attached]
  have hstep : onDeviceOrientation e ⟨n, true, 0, g⟩ = ⟨n + 1, false, 1, g⟩ := by
    unfold onDeviceOrientation
    dsimp only
    rw [if_pos hb, if_pos (show n + 1 ≥ NO_DATA_THRESHOLD from h5)]
  rw [hstep]
  exact gyroProcess_detached rest _ rfl

/-- A both-null event below the threshold just increments the counter. -/
theorem gyroProcess_cons_null_low (e : OrientationEvent)
    (rest : List OrientationEvent) (n : Nat) (g : ℝ × ℝ)
    (hb : bothNull e = true) (h5 : n + 1 < 5) :
    gyroProcess ⟨n, true, 0, g⟩ (e :: rest) =
      gyroProcess ⟨n + 1, true, 0, g⟩ rest := by
  rw [gyroProcess_cons, gyroStep_attached]
  have hstep : onDeviceOrientation e ⟨n, true, 0, g⟩ = ⟨n + 1, true, 0, g⟩ := by
    unfold onDeviceOrientation
    dsimp only
    rw [if_pos hb, if_neg (show ¬(n + 1 ≥ NO_DATA_THRESHOLD) by
      unfold NO_DATA_THRESHOLD; omega)]
  rw [hstep]

/-- An event with real data resets the counter and writes clamped gravity. -/
theorem gyroProcess_cons_data (e : OrientationEvent)
    (rest : List OrientationEvent) (n : Nat) (g : ℝ × ℝ)
    (hb : bothNull e = false) :
    gyroProcess ⟨n, true, 0, g⟩ (e :: rest) =
      gyroProcess ⟨0, true, 0,
        clampGravity ((e.gamma.getD 0) / TILT_SCALE)
          (Real.sin ((e.beta.getD 90) * Real.pi / 180))⟩ rest := by
  rw [gyroProcess_cons, gyroStep_attached]
  have hstep : onDeviceOrientation e ⟨n, true, 0, g⟩ =
      ⟨0, true, 0, clampGravity ((e.gamma.getD 0) / TILT_SCALE)
        (Real.sin ((e.beta.getD 90) * Real.pi / 180))⟩ := by
    unfold onDeviceOrientation
    rw [if_neg (by simp [hb])]
  rw [hstep]

/-- Invariant of the no-gyroscope detector: starting attached with `n < 5`
nulls already counted and no fallback calls, the fallback count stays at
most one; it reaches one exactly when the stream starts with `5 - n` nulls
or contains five consecutive nulls; and the listener is detached exactly
when the fallback was called. -/
theorem gyroProcess_fallback_aux : ∀ (evs : List OrientationEvent)
    (n : Nat) (g : ℝ × ℝ), n < 5 →
    (gyroProcess ⟨n, true, 0, g⟩ evs).fallbackCalls ≤ 1 ∧
    ((gyroProcess ⟨n, true, 0, g⟩ evs).fallbackCalls = 1 ↔
      LeadNullRun (5 - n) evs ∨ HasNullRun 5 evs) ∧
    ((gyroProcess ⟨n, true, 0, g⟩ evs).attached = false ↔
      (gyroProcess ⟨n, true, 0, g⟩ evs).fallbackCalls = 1) := by
  intro evs
  induction evs with
  | nil =>
    intro n g hn
    refine ⟨?_, ?_, ?_⟩
    · show (0 : Nat) ≤ 1; omega
    · show (0 : Nat) = 1 ↔ _
      constructor
      · intro h; simp at h
      · rintro (h | h)
        · have := leadNullRun_nil _ h; omega
        · have := hasNullRun_nil h; omega
    · show (true = false) ↔ ((0 : Nat) = 1)
      constructor <;> intro h <;> simp at h
  | cons e rest ih =>
    intro n g hn
    by_cases hb : bothNull e = true
    · by_cases h5 : 5 ≤ n + 1
      · rw [gyroProcess_cons_null_high e rest n g hb h5]
        have hn4 : n = 4 := by omega
        subst hn4
        refine ⟨?_, ?_, ?_⟩
        · show (1 : Nat) ≤ 1; omega
        · constructor
          · intro _
            left
            show LeadNullRun (5 - 4) (e :: rest)
            exact (leadNullRun_cons 0 e rest).mpr ⟨hb, leadNullRun_zero rest⟩
          · intro _; rfl
        · show (false = false) ↔ ((1 : Nat) = 1)
          simp
      · have h5' : n + 1 < 5 := by omega
        rw [gyroProcess_cons_null_low e rest n g hb h5']
        obtain ⟨ih1, ih2, ih3⟩ := ih (n + 1) g h5'
        refine ⟨ih1, ?_, ih3⟩
        rw [ih2]
        have hsub : 5 - n = (5 - (n + 1)) + 1 := by omega
        constructor
        · rintro (h | h)
          · left; rw [hsub]
            exact (leadNullRun_cons _ e rest).mpr ⟨hb, h⟩
          · right; exact (hasNullRun_cons 5 e rest).mpr (Or.inr h)
        · rintro (h | h)
          · left
            rw [hsub] at h
            exact ((leadNullRun_cons _ e rest).mp h).2
          · rcases (hasNullRun_cons 5 e rest).mp h with h' | h'
            · left
              have h4 : LeadNullRun 4 rest := ((leadNullRun_cons 4 e rest).mp h').2
              exact leadNullRun_mono (by omega) h4
            · right; exact h'
    · simp only [Bool.not_eq_true] at hb
      rw [gyroProcess_cons_data e rest n g hb]
      obtain ⟨ih1, ih2, ih3⟩ := ih 0 _ (by omega)
      refine ⟨ih1, ?_, ih3⟩
      rw [ih2]
      constructor
      · rintro (h | h)
        · right
          exact (hasNullRun_cons 5 e rest).mpr (Or.inr (leadNullRun_hasNullRun h))
        · right; exact (hasNullRun_cons 5 e rest).mpr (Or.inr h)
      · rintro (h | h)
        · exfalso
          have hsub : 5 - n = (5 - (n + 1)) + 1 := by omega
          rw [hsub] at h
          have hhead := ((leadNullRun_cons _ e rest).mp h).1
          rw [hb] at hhead
          exact Bool.noConfusion hhead
        · rcases (hasNullRun_cons 5 e rest).mp h with h' | h'
          · exfalso
            have hhead := ((leadNullRun_cons 4 e rest).mp h').1
            rw [hb] at hhead
            exact Bool.noConfusion hhead
          · right; exact h'

/-! ## Claims -/

/-- C10: the collision cooldown key is symmetric — for all body ids `a` and
`b`, `_pairKey(a, b) = _pairKey(b, a)` in both the sound and vibration
modules — so the per-pair 80 ms cooldown suppresses repeat effects for a
colliding pair regardless of the order in which the physics engine reports
the two bodies. -/
theorem claim_C10 :
    (∀ a b : Nat, Sound.pairKey a b = Sound.pairKey b a) ∧
    (∀ a b : Nat, Vibration.pairKey a b = Vibration.pairKey b a) ∧
    (∀ (m : List (String × ℚ)) (now : ℚ) (a b : Nat),
      suppressed m now a b = suppressed m now b a) := by
  refine ⟨sound_pairKey_swap, ?_, ?_⟩
  · intro a b
    rw [vibration_pairKey_eq_sound, vibration_pairKey_eq_sound, sound_pairKey_swap]
  · intro m now a b
    unfold suppressed
    rw [sound_pairKey_swap]

/-- C4: for every possible stored string under the `gyroballs_count` key
(including absence), the ball count lies in `[1, 30]`: non-parseable values
yield the default 10 and parseable values are clamped with
`min(30, max(1, n))`. -/
theorem claim_C4 : ∀ store : Option String,
    (1 ≤ storedBallCount store ∧ storedBallCount store ≤ 30) ∧
    (parseIntJS (store.getD "") = none → storedBallCount store = 10) ∧
    (∀ n : Int, parseIntJS (store.getD "") = some n →
      storedBallCount store = min 30 (max 1 n)) := by
  intro store
  unfold storedBallCount
  cases h : parseIntJS (store.getD "") with
  | none =>
    refine ⟨⟨?_, ?_⟩, fun _ => rfl, fun n hn => by simp at hn⟩
    · show (1 : Int) ≤ 10; norm_num
    · show (10 : Int) ≤ 30; norm_num
  | some n =>
    refine ⟨⟨?_, ?_⟩, fun hc => by simp at hc, fun m hm => by
      injection hm with hm; rw [hm]⟩
    · show (1 : Int) ≤ min 30 (max 1 n)
      exact le_min (by norm_num) (le_max_left 1 n)
    · show min (30 : Int) (max 1 n) ≤ 30
      exact min_le_left 30 (max 1 n)

/-- Witness for C4 at concrete stored strings. -/
theorem claim_C4_witness :
    storedBallCount (some "abc") = 10 ∧
    storedBallCount (some "42") = min 30 (max 1 42) :=
  ⟨(claim_C4 (some "abc")).2.1 (by decide),
   (claim_C4 (some "42")).2.2 42 (by decide)⟩

/-- C7: failures are caught locally and degrade to a fallback or a no-op:
a throwing or non-granted `DeviceOrientationEvent.requestPermission()`
resolves to `'denied'` (the prompt always resolves — nothing propagates),
a non-granted resolution makes `initGyroscope` invoke `onDenied` instead of
starting gravity control, and a throwing `navigator.vibrate` is swallowed
so the collision handler returns normally. -/
theorem claim_C7 :
    (∀ outcome, promptResolve outcome = "granted" ∨
      promptResolve outcome = "denied") ∧
    (∀ e : Unit, promptResolve (.error e) = "denied") ∧
    (∀ s : String, s ≠ "granted" → promptResolve (.ok s) = "denied") ∧
    (∀ outcome, promptResolve outcome ≠ "granted" →
      initGyroscope true outcome = ⟨true, false⟩) ∧
    (∀ (vibrate : Nat → Except Unit Unit) (d : Nat),
      vibrateGuarded vibrate d = .ok ()) := by
  refine ⟨?_, ?_, ?_, ?_, ?_⟩
  · intro o
    unfold promptResolve
    cases o with
    | ok s =>
      by_cases h : s = "granted"
      · left; simp [h]
      · right; simp [h]
    | error e => right; rfl
  · intro e; rfl
  · intro s h; simp [promptResolve, h]
  · intro o h; simp [initGyroscope, h]
  · intro v d
    unfold vibrateGuarded
    cases h : v d with
    | ok u => cases u; rfl
    | error e => rfl

/-- Witness for C7 at a concrete non-granted state and a thrown call. -/
theorem claim_C7_witness :
    promptResolve (.ok "default") = "denied" ∧
    initGyroscope true (.error ()) = ⟨true, false⟩ :=
  ⟨claim_C7.2.2.1 "default" (by decide),
   claim_C7.2.2.2.1 (.error ()) (by decide)⟩

/-- C2: while the reset state machine is counting down (`_isResetting` is
true), no trigger — shake, double-click, or double-tap — starts a new
countdown: the machine state, the countdown timer, the gravity freeze, the
cooldown timestamp and the engine gravity are all unchanged and no actions
are emitted. -/
theorem claim_C2 : ∀ (store : Option String) (s : ResetState) (ev : REvent),
    s.isResetting = true → isTrigger ev = true →
    (resetStep store s ev).1.isResetting = true ∧
    (resetStep store s ev).1.timer = s.timer ∧
    (resetStep store s ev).1.gravityOverride = s.gravityOverride ∧
    (resetStep store s ev).1.lastShakeMs = s.lastShakeMs ∧
    (resetStep store s ev).1.engineGravity = s.engineGravity ∧
    (resetStep store s ev).2 = [] := by
  intro store s ev hr ht
  cases ev with
  | motion now acc => simp [resetStep, hr]
  | dblclick now => simp [resetStep, hr]
  | touchend now => simp [resetStep, hr]
  | tick => cases ht
  | gravityWrite g => cases ht
  | beforeUpdate => cases ht

/-- Witness for C2: a double-click arriving mid-countdown changes nothing. -/
theorem claim_C2_witness :
    (resetStep none ⟨true, 0, some (0, 0), some ⟨1000, 3⟩, 0, (0, 0)⟩
      (.dblclick 100)).1.isResetting = true ∧
    (resetStep none ⟨true, 0, some (0, 0), some ⟨1000, 3⟩, 0, (0, 0)⟩
      (.dblclick 100)).2 = [] := by
  have h := claim_C2 none ⟨true, 0, some (0, 0), some ⟨1000, 3⟩, 0, (0, 0)⟩
    (.dblclick 100) rfl rfl
  exact ⟨h.1, h.2.2.2.2.2⟩

/-- Counterexample to C6 as stated: a double-click trigger is accepted at
time 0 (becoming the previous accepted trigger), the countdown runs its
three ticks back to idle, and a second double-click at time 3100 — within
`SHAKE_COOLDOWN_MS = 4500` ms of the previous accepted trigger — starts a
new countdown anyway: the double-click path never consults the cooldown. -/
theorem claim_C6_counterexample :
    (resetRun none ⟨false, -4500, none, none, 0, (0, 1)⟩
      [.dblclick 0, .tick, .tick, .tick]).isResetting = false ∧
    (resetRun none ⟨false, -4500, none, none, 0, (0, 1)⟩
      [.dblclick 0, .tick, .tick, .tick]).lastShakeMs = 0 ∧
    (3100 : ℚ) - 0 < SHAKE_COOLDOWN_MS ∧
    (resetStep none (resetRun none ⟨false, -4500, none, none, 0, (0, 1)⟩
      [.dblclick 0, .tick, .tick, .tick]) (.dblclick 3100)).1.isResetting =
      true := by
  refine ⟨by decide, by decide, by norm_num [SHAKE_COOLDOWN_MS], by decide⟩

/-- C6 as amended: only the shake (devicemotion) trigger is subject to the
cooldown guard — a motion event arriving within `SHAKE_COOLDOWN_MS = 4500`
ms of the previous accepted trigger never starts a countdown and leaves the
state untouched.  (Double-click and double-tap are guarded only by the
countdown-in-progress flag.) -/
theorem claim_C6 : ∀ (store : Option String) (s : ResetState) (now : ℚ)
    (acc : Option (Option ℚ × Option ℚ × Option ℚ)),
    now - s.lastShakeMs < SHAKE_COOLDOWN_MS →
    resetStep store s (.motion now acc) = (s, []) := by
  intro store s now acc h
  unfold resetStep
  by_cases hr : s.isResetting
  · simp [hr]
  · simp [hr, h]

/-- Witness for C6: a hard shake 0 ms after the last accepted trigger
(squared magnitude 2700 > 484 would otherwise fire) is ignored. -/
theorem claim_C6_witness :
    (0 : ℚ) - 0 < SHAKE_COOLDOWN_MS ∧
    resetStep none ⟨false, 0, none, none, 0, (0, 1)⟩
      (.motion 0 (some (some 30, some 30, some 30))) =
      (⟨false, 0, none, none, 0, (0, 1)⟩, []) :=
  ⟨by norm_num [SHAKE_COOLDOWN_MS],
   claim_C6 none ⟨false, 0, none, none, 0, (0, 1)⟩ 0
     (some (some 30, some 30, some 30)) (by norm_num [SHAKE_COOLDOWN_MS])⟩

/-- C5: the mouse-gravity mapper sends the exact screen centre
(`clientX = innerWidth/2`, `clientY = innerHeight/2`) to the gravity vector
`(0, 0)`, for every window size with positive width and height. -/
theorem claim_C5 : ∀ w h : ℝ, 0 < w → 0 < h →
    mouseGravity w h (w / 2) (h / 2) = (0, 0) := by
  intro w h hw hh
  dsimp only [mouseGravity]
  rw [sub_self, sub_self, zero_div, zero_div, zero_mul]
  exact clampGravity_zero

/-- Witness for C5 on a 2×2 window. -/
theorem claim_C5_witness : mouseGravity 2 2 1 1 = (0, 0) := by
  have h := claim_C5 2 2 (by norm_num) (by norm_num)
  norm_num at h
  exact h

/-- C1: every gravity vector written by the gyroscope handler (on any tilt
event that carries data) and by the mouse handler (on any cursor position)
has magnitude at most `MAX_GRAVITY = 2.5`. -/
theorem claim_C1 :
    (∀ (ev : OrientationEvent) (s : GyroState), bothNull ev = false →
      magnitude (onDeviceOrientation ev s).gravity ≤ MAX_GRAVITY) ∧
    (∀ w h cX cY : ℝ, magnitude (mouseGravity w h cX cY) ≤ MAX_GRAVITY) := by
  constructor
  · intro ev s h
    unfold onDeviceOrientation
    rw [if_neg (by simp [h])]
    exact clampGravity_le _ _
  · intro w h cX cY
    dsimp only [mouseGravity]
    exact clampGravity_le _ _

/-- Witness for C1: a flat-device tilt event and an off-centre cursor. -/
theorem claim_C1_witness :
    bothNull ⟨some 0, some 0⟩ = false ∧
    magnitude (onDeviceOrientation ⟨some 0, some 0⟩ (gyroInit (0, 1))).gravity ≤
      MAX_GRAVITY ∧
    magnitude (mouseGravity 1024 768 100 200) ≤ MAX_GRAVITY :=
  ⟨rfl, claim_C1.1 ⟨some 0, some 0⟩ (gyroInit (0, 1)) rfl,
   claim_C1.2 1024 768 100 200⟩

/-- C9: magnitude clamping preserves direction — the written vector is a
nonnegative scalar multiple of the raw mapped vector, its magnitude is the
raw magnitude capped at `MAX_GRAVITY`, and a raw vector already within the
bound is written unchanged. -/
theorem claim_C9 : ∀ gx gy : ℝ,
    (∃ c : ℝ, 0 ≤ c ∧ clampGravity gx gy = (c * gx, c * gy)) ∧
    magnitude (clampGravity gx gy) = min (magnitude (gx, gy)) MAX_GRAVITY ∧
    (magnitude (gx, gy) ≤ MAX_GRAVITY → clampGravity gx gy = (gx, gy)) := by
  intro gx gy
  refine ⟨?_, clampGravity_magnitude gx gy, ?_⟩
  · dsimp only [clampGravity]
    by_cases h : Real.sqrt (gx * gx + gy * gy) > MAX_GRAVITY
    · rw [if_pos h]
      have hM : (0 : ℝ) ≤ MAX_GRAVITY := by norm_num [MAX_GRAVITY]
      refine ⟨MAX_GRAVITY / Real.sqrt (gx * gx + gy * gy),
        div_nonneg hM (Real.sqrt_nonneg _), ?_⟩
      simp only [Prod.mk.injEq]
      constructor <;> ring
    · rw [if_neg h]
      exact ⟨1, zero_le_one, by simp⟩
  · intro hle
    have hle' : Real.sqrt (gx * gx + gy * gy) ≤ MAX_GRAVITY := hle
    dsimp only [clampGravity]
    rw [if_neg (not_lt.mpr hle')]

/-- Witness for C9 at the in-bound raw vector `(1, 0)`. -/
theorem claim_C9_witness :
    clampGravity 1 0 = (1, 0) ∧
    (∃ c : ℝ, 0 ≤ c ∧ clampGravity 1 0 = (c * 1, c * 0)) := by
  have hmag : magnitude ((1 : ℝ), (0 : ℝ)) ≤ MAX_GRAVITY := by
    show Real.sqrt (1 * 1 + 0 * 0) ≤ MAX_GRAVITY
    rw [show (1 : ℝ) * 1 + 0 * 0 = 1 by ring, Real.sqrt_one]
    norm_num [MAX_GRAVITY]
  exact ⟨(claim_C9 1 0).2.2 hmag, (claim_C9 1 0).1⟩

/-- C3: a reset triggered from idle shows the overlay at 3 with the first
beep and starts a 1000 ms interval with three counts left; the first two
ticks show 2 and 1 with ascending beeps; throughout the countdown the
gravity override is `(0, 0)` and every physics step (`beforeUpdate`) forces
the engine gravity to `(0, 0)`; the third tick hides the overlay, removes
all balls, respawns `storedBallCount` fresh balls, releases the freeze and
returns the machine to idle, leaving exactly the stored ball count in the
world. -/
theorem claim_C3 : ∀ (store : Option String) (now : ℚ)
    (s0 s1 s2 s3 s4 : ResetState) (a1 a2 a3 a4 : List RAction),
    s0.isResetting = false →
    triggerReset now s0 = (s1, a1) →
    timerTick store s1 = (s2, a2) →
    timerTick store s2 = (s3, a3) →
    timerTick store s3 = (s4, a4) →
    a1 = [.showOverlay, .showNumber 3, .beep 1] ∧
    s1.isResetting = true ∧ s1.gravityOverride = some (0, 0) ∧
    s1.timer = some ⟨1000, 3⟩ ∧
    a2 = [.showNumber 2, .beep 2] ∧ s2.gravityOverride = some (0, 0) ∧
    s2.timer = some ⟨1000, 2⟩ ∧
    a3 = [.showNumber 1, .beep 3] ∧ s3.gravityOverride = some (0, 0) ∧
    s3.timer = some ⟨1000, 1⟩ ∧
    (∀ s : ResetState, s.gravityOverride = some (0, 0) →
      (resetStep store s .beforeUpdate).1.engineGravity = (0, 0)) ∧
    a4 = [.hideOverlay, .removeAllBalls, .resetBalls (storedBallCount store)] ∧
    s4.isResetting = false ∧ s4.gravityOverride = none ∧ s4.timer = none ∧
    (∀ balls : Int,
      applyBallActions balls (a1 ++ a2 ++ a3 ++ a4) = storedBallCount store) := by
  intro store now s0 s1 s2 s3 s4 a1 a2 a3 a4 h0 h1 h2 h3 h4
  simp only [triggerReset, h0, Bool.false_eq_true, if_false] at h1
  injection h1 with hs1 ha1
  subst hs1; subst ha1
  simp only [timerTick] at h2
  injection h2 with hs2 ha2
  subst hs2; subst ha2
  simp only [timerTick] at h3
  injection h3 with hs3 ha3
  subst hs3; subst ha3
  simp only [timerTick] at h4
  injection h4 with hs4 ha4
  subst hs4; subst ha4
  refine ⟨rfl, rfl, rfl, rfl, rfl, rfl, rfl, rfl, rfl, rfl, ?_, rfl, rfl, rfl, rfl, ?_⟩
  · intro s hs
    simp [resetStep, hs]
  · intro balls
    simp [applyBallActions, applyAction]

/-- Witness for C3: a full countdown from a concrete idle state with no
stored ball count (so 10 balls respawn). -/
theorem claim_C3_witness :
    [RAction.hideOverlay, .removeAllBalls, .resetBalls 10] =
      [RAction.hideOverlay, .removeAllBalls, .resetBalls (storedBallCount none)] ∧
    applyBallActions 7
      ([.showOverlay, .showNumber 3, .beep 1] ++ [.showNumber 2, .beep 2] ++
       [.showNumber 1, .beep 3] ++
       [.hideOverlay, .removeAllBalls, .resetBalls 10]) = storedBallCount none := by
  have h := claim_C3 none 0 ⟨false, -4500, none, none, 0, (0, 1)⟩
      ⟨true, 0, some (0, 0), some ⟨1000, 3⟩, 0, (0, 1)⟩
      ⟨true, 0, some (0, 0), some ⟨1000, 2⟩, 0, (0, 1)⟩
      ⟨true, 0, some (0, 0), some ⟨1000, 1⟩, 0, (0, 1)⟩
      ⟨false, 0, none, none, 0, (0, 1)⟩
      [.showOverlay, .showNumber 3, .beep 1] [.showNumber 2, .beep 2]
      [.showNumber 1, .beep 3] [.hideOverlay, .removeAllBalls, .resetBalls 10]
      rfl rfl rfl rfl rfl
  obtain ⟨-, -, -, -, -, -, -, -, -, -, -, ha4, -, -, -, hballs⟩ := h
  exact ⟨ha4, hballs 7⟩

/-- C8: starting from the initial listener state, the no-data fallback fires
at most once, it fires exactly when `NO_DATA_THRESHOLD = 5` consecutive
events with both `beta` and `gamma` null occur in the stream (any
intervening data event resets the counter, so fewer than five consecutive
nulls never trigger it), and the listener is removed exactly when the
fallback fired. -/
theorem claim_C8 : ∀ (g0 : ℝ × ℝ) (evs : List OrientationEvent),
    (gyroProcess (gyroInit g0) evs).fallbackCalls ≤ 1 ∧
    ((gyroProcess (gyroInit g0) evs).fallbackCalls = 1 ↔
      HasNullRun NO_DATA_THRESHOLD evs) ∧
    ((gyroProcess (gyroInit g0) evs).attached = false ↔
      (gyroProcess (gyroInit g0) evs).fallbackCalls = 1) := by
  intro g0 evs
  have h := gyroProcess_fallback_aux evs 0 g0 (by omega)
  have hinit : gyroInit g0 = (⟨0, true, 0, g0⟩ : GyroState) := rfl
  rw [hinit]
  refine ⟨h.1, ?_, h.2.2⟩
  rw [h.2.1]
  constructor
  · rintro (hl | hh)
    · exact leadNullRun_hasNullRun hl
    · exact hh
  · intro hh
    right
    exact hh

end GyroBalls
